/-
Verification of the Air-Quality-Index repository core:
category classifier (src/aqi_utils.py, src/config.py),
trend projector (src/predictor.py), and the per-city /
multi-city report builders (src/aqi_app.py).

Machine floats are modelled by exact rationals (ℚ); the sklearn
`LinearRegression` (ordinary least squares with intercept) is embedded by
its closed-form slope/intercept solution, with the degenerate (zero
variance in x) case returning slope 0 and intercept ȳ, matching the
least-norm solution sklearn computes on centred data.
-/
import Mathlib

namespace AQI

/-! ### Configuration (src/config.py) -/

/-- Table `AQI_CATEGORIES` from src/config.py: (low, high, label, color). -/
def AQI_CATEGORIES : List (ℚ × ℚ × String × String) :=
  [ (0, 50, "Good", "#00e400")
  , (51, 100, "Moderate", "#ffff00")
  , (101, 150, "Unhealthy for Sensitive Groups", "#ff7e00")
  , (151, 200, "Unhealthy", "#ff0000")
  , (201, 300, "Very Unhealthy", "#8f3f97")
  , (301, 500, "Hazardous", "#7e0023") ]

/-- Constant `DEFAULT_PREDICTION_DAYS = 7` from src/config.py. -/
def DEFAULT_PREDICTION_DAYS : ℕ := 7

/-- Constant `PREDICTION_GROWTH_RATE = 0.04` from src/config.py. -/
def PREDICTION_GROWTH_RATE : ℚ := 4 / 100

/-! ### Category classifier (src/aqi_utils.py, get_aqi_category) -/

/-- The linear scan of `get_aqi_category`: first band whose inclusive
`[low, high]` range contains the value wins; fallback `("Unknown", "gray")`. -/
def lookupCategory : List (ℚ × ℚ × String × String) → ℚ → String × String
  | [], _ => ("Unknown", "gray")
  | (low, high, label, color) :: rest, aqi =>
      if low ≤ aqi ∧ aqi ≤ high then (label, color) else lookupCategory rest aqi

/-- Function `get_aqi_category(aqi)` from src/aqi_utils.py. -/
def get_aqi_category (aqi : ℚ) : String × String :=
  lookupCategory AQI_CATEGORIES aqi

/-! ### Trend projector (src/predictor.py, AQIPredictor) -/

/-- Assignment `self.growth_rate = growth_rate or PREDICTION_GROWTH_RATE` in
`AQIPredictor.__init__`: Python `or` replaces both `None` and the falsy
value `0` with the configured default. -/
def init_growth_rate : Option ℚ → ℚ
  | none => PREDICTION_GROWTH_RATE
  | some g => if g = 0 then PREDICTION_GROWTH_RATE else g

/-- Clamp `np.clip(x, 0, 500)` on one element. -/
def clampQ (x : ℚ) : ℚ := min (max x 0) 500

/-- Feature column `X = [i + 1 for i in range(days)]` of `predict_aqi`. -/
def trainX (days : ℕ) : List ℚ := (List.range days).map (fun i : ℕ => (i : ℚ) + 1)

/-- Training signal `y = [current_aqi * (1 + growth_rate * i) for i in
range(days)]` of `predict_aqi` (note `i` starts at 0). -/
def trainY (c r : ℚ) (days : ℕ) : List ℚ :=
  (List.range days).map (fun i : ℕ => c * (1 + r * (i : ℚ)))

/-- Ordinary least squares with intercept (sklearn `LinearRegression.fit`):
returns `(slope, intercept)`.  When the denominator `n·Σx² − (Σx)²`
vanishes (zero variance in x) the centred least-norm solution is slope 0,
intercept ȳ. -/
def fitSlopeIntercept (xs ys : List ℚ) : ℚ × ℚ :=
  let n : ℚ := xs.length
  let sx := xs.sum
  let sy := ys.sum
  let sxx := (xs.map fun x => x * x).sum
  let sxy := ((xs.zip ys).map fun p => p.1 * p.2).sum
  let den := n * sxx - sx * sx
  let slope := if den = 0 then 0 else (n * sxy - sx * sy) / den
  (slope, (sy - slope * sx) / n)

/-- The regression predictions `self.model.predict(X)` of `predict_aqi`,
before clamping. -/
def predict_raw (c r : ℚ) (days : ℕ) : List ℚ :=
  let xs := trainX days
  let p := fitSlopeIntercept xs (trainY c r days)
  xs.map (fun x => p.2 + p.1 * x)

/-- Method `AQIPredictor.predict_aqi(current_aqi, days)` with growth rate `r`:
fit a linear model to the generated signal, predict at the training
features, then clamp into [0, 500]. -/
def predict_aqi (c r : ℚ) (days : ℕ) : List ℚ :=
  (predict_raw c r days).map clampQ

/-- Result record of `AQIPredictor.get_prediction_summary`. -/
structure PredictionSummary where
  predictions : List ℚ
  min_predicted : ℚ
  max_predicted : ℚ
  avg_predicted : ℚ
  trend : String
deriving DecidableEq, Repr

/-- Minimum `np.min` over a list (the code only calls it on nonempty series;
the `[]` case, where numpy raises, is given a dummy value 0). -/
def listMin : List ℚ → ℚ
  | [] => 0
  | x :: xs => xs.foldl min x

/-- Maximum `np.max` over a list (dummy 0 on `[]`, where numpy raises). -/
def listMax : List ℚ → ℚ
  | [] => 0
  | x :: xs => xs.foldl max x

/-- Method `AQIPredictor.get_prediction_summary(current_aqi, days)`:
statistics over the predicted series; `trend` is `"increasing"` iff the
last prediction is strictly greater than the first. -/
def get_prediction_summary (c r : ℚ) (days : ℕ) : PredictionSummary :=
  let ps := predict_aqi c r days
  { predictions := ps
  , min_predicted := listMin ps
  , max_predicted := listMax ps
  , avg_predicted := ps.sum / (ps.length : ℚ)
  , trend := if ps.getLastD 0 > ps.headD 0 then "increasing" else "decreasing" }

/-! ### Per-city report builder (src/aqi_app.py, AQIApp.get_city_aqi_info) -/

/-- Python method `str.capitalize()`: first character upper-cased, the rest
lower-cased. -/
def pyCapitalize (s : String) : String :=
  match s.data with
  | [] => ""
  | ch :: rest => String.mk (ch.toUpper :: rest.map Char.toLower)

/-- The dict returned by `AQIApp.get_city_aqi_info`: on success all data
fields are populated; on error only `city`, `error` and `status` are. -/
structure CityInfo where
  city : String
  status : String
  current_aqi : Option ℚ
  category : Option (String × String)
  predictions : Option (List ℚ)
  prediction_summary : Option PredictionSummary
  error : Option String
deriving DecidableEq, Repr

/-- The injected fetch capability: `AQIDataFetcher.fetch_aqi` either
returns a numeric value or raises, modelled as `Except` with the raised
message. -/
abbrev Fetch := String → Except String ℚ

/-- Method `AQIApp.get_city_aqi_info(city)`: fetch, classify, predict; any
error raised by the fetch is caught and converted into an error-status
record carrying `str(e)`.  The predictor of the app is constructed with the
default growth rate and predictions use the default horizon. -/
def get_city_aqi_info (fetch : Fetch) (city : String) : CityInfo :=
  match fetch city with
  | .ok v =>
      { city := pyCapitalize city
      , status := "success"
      , current_aqi := some v
      , category := some (get_aqi_category v)
      , predictions := some (predict_aqi v PREDICTION_GROWTH_RATE DEFAULT_PREDICTION_DAYS)
      , prediction_summary :=
          some (get_prediction_summary v PREDICTION_GROWTH_RATE DEFAULT_PREDICTION_DAYS)
      , error := none }
  | .error e =>
      { city := pyCapitalize city
      , status := "error"
      , current_aqi := none
      , category := none
      , predictions := none
      , prediction_summary := none
      , error := some e }

/-! ### Multi-city aggregator (src/aqi_app.py, get_multiple_cities_report) -/

/-- Record for the `summary` sub-dict of `get_multiple_cities_report`. -/
structure ReportSummary where
  total_cities : ℕ
  successful_fetches : ℕ
  failed_fetches : ℕ
  average_aqi : ℚ
  highest_aqi_city : Option (String × ℚ)
  lowest_aqi_city : Option (String × ℚ)
deriving DecidableEq, Repr

/-- The report of `get_multiple_cities_report`: per-city records in
insertion order plus the summary. -/
structure MultiCityReport where
  cities : List (String × CityInfo)
  summary : ReportSummary
deriving DecidableEq, Repr

/-- Python `max(xs, key=lambda x: x[1])` over a nonempty list: running
maximum with strict `>`, so the first element attaining the maximum wins. -/
def maxBySnd : List (String × ℚ) → Option (String × ℚ)
  | [] => none
  | x :: xs => some (xs.foldl (fun best y => if y.2 > best.2 then y else best) x)

/-- Python `min(xs, key=lambda x: x[1])`: running minimum with strict `<`. -/
def minBySnd : List (String × ℚ) → Option (String × ℚ)
  | [] => none
  | x :: xs => some (xs.foldl (fun best y => if y.2 < best.2 then y else best) x)

/-- The `valid_aqis` accumulator of `get_multiple_cities_report`: the
(city, current value) pairs of the Success-tagged entries, in input
order. -/
def valid_aqis (fetch : Fetch) (cities : List String) : List (String × ℚ) :=
  (cities.map (fun c => (c, get_city_aqi_info fetch c))).filterMap
    (fun p => if p.2.status = "success" then p.2.current_aqi.map (fun a => (p.1, a)) else none)

/-- Method `AQIApp.get_multiple_cities_report(cities)` continued: build a
per-city record for each name in input order, count successes/failures,
and compute average / highest / lowest over the successful entries only
(summary fields keep their initial values 0 / `None` when no city
succeeds). -/
def get_multiple_cities_report (fetch : Fetch) (cities : List String) : MultiCityReport :=
  let infos := cities.map (fun c => (c, get_city_aqi_info fetch c))
  let va := valid_aqis fetch cities
  { cities := infos
  , summary :=
    { total_cities := cities.length
    , successful_fetches := infos.countP (fun p => p.2.status == "success")
    , failed_fetches := infos.countP (fun p => !(p.2.status == "success"))
    , average_aqi :=
        if va.isEmpty then 0
        else (va.map (fun p => p.2)).sum / (va.length : ℚ)
    , highest_aqi_city := maxBySnd va
    , lowest_aqi_city := minBySnd va } }

/-! ### Helper lemmas: the regression on an affine signal reproduces it -/

/-- The training signal is affine in the feature column. -/
lemma trainY_eq_affine (c r : ℚ) (d : ℕ) :
    trainY c r d = (trainX d).map (fun x => (c - c * r) + c * r * x) := by
  unfold trainY trainX
  rw [List.map_map]
  refine List.map_congr_left (fun i _ => ?_)
  simp only [Function.comp_apply]
  ring

lemma sum_map_affine (a b : ℚ) (xs : List ℚ) :
    (xs.map (fun x => a + b * x)).sum = a * xs.length + b * xs.sum := by
  induction xs with
  | nil => simp
  | cons y ys ih =>
    rw [List.map_cons, List.sum_cons, List.sum_cons, ih, List.length_cons]
    push_cast
    ring

lemma sum_zip_map_affine (a b : ℚ) (xs : List ℚ) :
    ((xs.zip (xs.map fun x => a + b * x)).map fun p => p.1 * p.2).sum
      = a * xs.sum + b * (xs.map fun x => x * x).sum := by
  induction xs with
  | nil => simp
  | cons y ys ih =>
    simp only [List.map_cons, List.zip_cons_cons, List.sum_cons, ih]
    ring

/-- Ordinary least squares fitted to exactly affine data recovers the
slope and intercept (nondegenerate case). -/
lemma fitSlopeIntercept_affine (a b : ℚ) (xs : List ℚ)
    (hden : (xs.length : ℚ) * (xs.map fun x => x * x).sum - xs.sum * xs.sum ≠ 0) :
    fitSlopeIntercept xs (xs.map fun x => a + b * x) = (b, a) := by
  have hn : (xs.length : ℚ) ≠ 0 := by
    cases xs with
    | nil => simp at hden
    | cons y ys =>
      rw [List.length_cons]
      push_cast
      positivity
  simp only [fitSlopeIntercept, sum_map_affine, sum_zip_map_affine, List.length_map]
  rw [if_neg hden, Prod.mk.injEq]
  constructor
  · field_simp
    ring
  · field_simp
    ring

lemma length_trainX (d : ℕ) : (trainX d).length = d := by
  rw [trainX, List.length_map, List.length_range]

lemma trainX_succ (n : ℕ) : trainX (n + 1) = trainX n ++ [(n : ℚ) + 1] := by
  rw [trainX, List.range_succ, List.map_append, trainX]
  rfl

lemma sum_trainX (d : ℕ) : (trainX d).sum = d * (d + 1) / 2 := by
  induction d with
  | zero => simp [trainX]
  | succ n ih =>
    rw [trainX_succ, List.sum_append, ih, List.sum_cons, List.sum_nil]
    push_cast
    ring

lemma sumsq_trainX (d : ℕ) :
    ((trainX d).map fun x => x * x).sum = d * (d + 1) * (2 * d + 1) / 6 := by
  induction d with
  | zero => simp [trainX]
  | succ n ih =>
    rw [trainX_succ, List.map_append, List.sum_append, ih,
      List.map_cons, List.map_nil, List.sum_cons, List.sum_nil]
    push_cast
    ring

/-- Closed form of the least-squares denominator over the feature column. -/
lemma den_trainX (d : ℕ) :
    ((trainX d).length : ℚ) * ((trainX d).map fun x => x * x).sum
        - (trainX d).sum * (trainX d).sum
      = (d : ℚ) ^ 2 * ((d : ℚ) + 1) * ((d : ℚ) - 1) / 12 := by
  rw [length_trainX, sum_trainX, sumsq_trainX]
  field_simp
  ring

lemma den_trainX_ne_zero (d : ℕ) (hd : 2 ≤ d) :
    ((trainX d).length : ℚ) * ((trainX d).map fun x => x * x).sum
        - (trainX d).sum * (trainX d).sum ≠ 0 := by
  rw [den_trainX]
  have hd2 : (2 : ℚ) ≤ (d : ℚ) := by exact_mod_cast hd
  have h1 : (0 : ℚ) < (d : ℚ) ^ 2 := by positivity
  have h2 : (0 : ℚ) < (d : ℚ) + 1 := by linarith
  have h3 : (0 : ℚ) < (d : ℚ) - 1 := by linarith
  have h4 : (0 : ℚ) < (d : ℚ) ^ 2 * ((d : ℚ) + 1) * ((d : ℚ) - 1) / 12 := by
    apply div_pos (mul_pos (mul_pos h1 h2) h3)
    norm_num
  exact ne_of_gt h4

/-- The regression output of `predict_aqi` equals direct evaluation of the
generating affine formula at every training feature. -/
lemma predict_raw_eq (c r : ℚ) (d : ℕ) :
    predict_raw c r d = (List.range d).map (fun i : ℕ => c * (1 + r * (i : ℚ))) := by
  match d with
  | 0 => rfl
  | 1 =>
    simp only [predict_raw, trainX, trainY, fitSlopeIntercept, List.range_succ,
      List.range_zero, List.map_nil, List.nil_append, List.map_cons,
      List.length_cons, List.length_nil, List.sum_cons, List.sum_nil,
      List.zip_cons_cons, List.zip_nil_right]
    norm_num
  | (n + 2) =>
    have hden := den_trainX_ne_zero (n + 2) (by omega)
    simp only [predict_raw]
    rw [trainY_eq_affine, fitSlopeIntercept_affine (c - c * r) (c * r) _ hden]
    rw [trainX, List.map_map]
    refine List.map_congr_left (fun i _ => ?_)
    simp only [Function.comp_apply]
    ring

/-- Each element of the predicted series is the clamp of the affine value. -/
lemma predict_aqi_eq (c r : ℚ) (d : ℕ) :
    predict_aqi c r d = (List.range d).map (fun i : ℕ => clampQ (c * (1 + r * (i : ℚ)))) := by
  rw [predict_aqi, predict_raw_eq, List.map_map]
  rfl

lemma clampQ_eq_ite (x : ℚ) :
    clampQ x = if x < 0 then 0 else if 500 < x then 500 else x := by
  unfold clampQ
  rcases lt_trichotomy x 0 with h | h | h
  · rw [if_pos h, max_eq_right h.le, min_eq_left]
    norm_num
  · subst h
    norm_num
  · rw [if_neg (not_lt.mpr h.le), max_eq_left h.le]
    rcases le_or_lt x 500 with h5 | h5
    · rw [min_eq_left h5, if_neg (not_lt.mpr h5)]
    · rw [min_eq_right h5.le, if_pos h5]

lemma clampQ_nonneg (x : ℚ) : 0 ≤ clampQ x :=
  le_min (le_max_right x 0) (by norm_num)

lemma clampQ_le_500 (x : ℚ) : clampQ x ≤ 500 :=
  min_le_right _ _

lemma clampQ_of_mem (x : ℚ) (h0 : 0 ≤ x) (h5 : x ≤ 500) : clampQ x = x := by
  rw [clampQ, max_eq_left h0, min_eq_left h5]

lemma headD_map_range (f : ℕ → ℚ) (d : ℕ) (hd : 1 ≤ d) :
    ((List.range d).map f).headD 0 = f 0 := by
  cases d with
  | zero => omega
  | succ n =>
    rw [List.range_succ_eq_map, List.map_cons]
    rfl

lemma getLastD_map_range (f : ℕ → ℚ) (d : ℕ) (hd : 1 ≤ d) :
    ((List.range d).map f).getLastD 0 = f (d - 1) := by
  cases d with
  | zero => omega
  | succ n =>
    rw [List.range_succ, List.map_append, List.map_cons, List.map_nil,
      List.getLastD_concat]
    rfl

lemma getD_map_range (f : ℕ → ℚ) (d i : ℕ) (hi : i < d) :
    ((List.range d).map f).getD i 0 = f i := by
  have hlen : i < ((List.range d).map f).length := by
    rw [List.length_map, List.length_range]
    exact hi
  rw [List.getD_eq_getElem _ _ hlen]
  simp

/-- First and last elements of the predicted series, in closed form. -/
lemma predict_aqi_headD (c r : ℚ) (d : ℕ) (hd : 1 ≤ d) :
    (predict_aqi c r d).headD 0 = clampQ c := by
  rw [predict_aqi_eq, headD_map_range _ _ hd]
  norm_num

lemma predict_aqi_getLastD (c r : ℚ) (d : ℕ) (hd : 1 ≤ d) :
    (predict_aqi c r d).getLastD 0 = clampQ (c * (1 + r * ((d - 1 : ℕ) : ℚ))) := by
  rw [predict_aqi_eq, getLastD_map_range _ _ hd]

/-! ### Claim theorems -/

/-- C5: the classifier returns ("Good", green) for every value in [0, 50],
with classify(50) = Good and classify(51) = Moderate at the boundary, and
returns the ("Unknown", "gray") sentinel for every value below 0 or above
500.  (Totality over all inputs is inherent: `get_aqi_category` is a total
Lean function.) -/
theorem C5_classifier_good_and_sentinel :
    (∀ v : ℚ, 0 ≤ v → v ≤ 50 → get_aqi_category v = ("Good", "#00e400")) ∧
    get_aqi_category 50 = ("Good", "#00e400") ∧
    get_aqi_category 51 = ("Moderate", "#ffff00") ∧
    (∀ v : ℚ, v < 0 ∨ 500 < v → get_aqi_category v = ("Unknown", "gray")) := by
  refine ⟨?_, by decide, by decide, ?_⟩
  · intro v h0 h50
    simp only [get_aqi_category, AQI_CATEGORIES, lookupCategory]
    rw [if_pos ⟨h0, h50⟩]
  · intro v hv
    have hout : ∀ lo hi : ℚ, 0 ≤ lo → hi ≤ 500 → ¬(lo ≤ v ∧ v ≤ hi) := by
      rintro lo hi hlo hhi ⟨ha, hb⟩
      rcases hv with h | h
      · linarith
      · linarith
    simp only [get_aqi_category, AQI_CATEGORIES, lookupCategory]
    rw [if_neg (hout 0 50 le_rfl (by norm_num)),
      if_neg (hout 51 100 (by norm_num) (by norm_num)),
      if_neg (hout 101 150 (by norm_num) (by norm_num)),
      if_neg (hout 151 200 (by norm_num) (by norm_num)),
      if_neg (hout 201 300 (by norm_num) (by norm_num)),
      if_neg (hout 301 500 (by norm_num) (by norm_num))]

/-- Witness for C5 at v = 25 (Good band) and v = 501 (sentinel). -/
theorem C5_witness :
    get_aqi_category 25 = ("Good", "#00e400") ∧
    get_aqi_category 501 = ("Unknown", "gray") :=
  ⟨C5_classifier_good_and_sentinel.1 25 (by norm_num) (by norm_num),
   C5_classifier_good_and_sentinel.2.2.2 501 (Or.inr (by norm_num))⟩

/-- C6 counterexample: the gap between 50 and 51 is material for
non-integer inputs — 50.5 lies in [0, 500] yet falls outside every band,
so the classifier returns the "Unknown" sentinel for an in-range value. -/
theorem C6_counterexample :
    (0 : ℚ) ≤ 101 / 2 ∧ (101 / 2 : ℚ) ≤ 500 ∧
    get_aqi_category (101 / 2) = ("Unknown", "gray") := by
  refine ⟨by norm_num, by norm_num, ?_⟩
  simp only [get_aqi_category, AQI_CATEGORIES, lookupCategory]
  norm_num

/-- C6 amended: restricted to integer index values, the six bands do
cover [0, 500] contiguously — the classifier never returns the "Unknown"
sentinel for a natural number at most 500.  (For non-integer values in
the open seam (50, 51) — and likewise (100, 101), etc. — the table gap is
material and the sentinel is returned.) -/
theorem C6_integer_coverage (n : ℕ) (hn : n ≤ 500) :
    get_aqi_category ((n : ℕ) : ℚ) ≠ ("Unknown", "gray") := by
  have hcast : ∀ m k : ℕ, m ≤ k → ((m : ℚ) ≤ (k : ℚ)) := by
    intro m k h
    exact_mod_cast h
  simp only [get_aqi_category, AQI_CATEGORIES, lookupCategory]
  have h0 : (0 : ℚ) ≤ (n : ℚ) := by positivity
  rcases le_or_lt n 50 with h | h
  · rw [if_pos ⟨h0, by exact_mod_cast h⟩]
    decide
  rcases le_or_lt n 100 with h2 | h2
  · rw [if_neg (by push_neg; intro _; exact_mod_cast h),
      if_pos ⟨by exact_mod_cast h, by exact_mod_cast h2⟩]
    decide
  rcases le_or_lt n 150 with h3 | h3
  · rw [if_neg (by push_neg; intro _; exact_mod_cast h),
      if_neg (by push_neg; intro _; exact_mod_cast h2),
      if_pos ⟨by exact_mod_cast h2, by exact_mod_cast h3⟩]
    decide
  rcases le_or_lt n 200 with h4 | h4
  · rw [if_neg (by push_neg; intro _; exact_mod_cast h),
      if_neg (by push_neg; intro _; exact_mod_cast h2),
      if_neg (by push_neg; intro _; exact_mod_cast h3),
      if_pos ⟨by exact_mod_cast h3, by exact_mod_cast h4⟩]
    decide
  rcases le_or_lt n 300 with h5 | h5
  · rw [if_neg (by push_neg; intro _; exact_mod_cast h),
      if_neg (by push_neg; intro _; exact_mod_cast h2),
      if_neg (by push_neg; intro _; exact_mod_cast h3),
      if_neg (by push_neg; intro _; exact_mod_cast h4),
      if_pos ⟨by exact_mod_cast h4, by exact_mod_cast h5⟩]
    decide
  · rw [if_neg (by push_neg; intro _; exact_mod_cast h),
      if_neg (by push_neg; intro _; exact_mod_cast h2),
      if_neg (by push_neg; intro _; exact_mod_cast h3),
      if_neg (by push_neg; intro _; exact_mod_cast h4),
      if_neg (by push_neg; intro _; exact_mod_cast h5),
      if_pos ⟨by exact_mod_cast h5, by exact_mod_cast hn⟩]
    decide

/-- Witness for C6 amended at n = 250. -/
theorem C6_witness :
    get_aqi_category ((250 : ℕ) : ℚ) ≠ ("Unknown", "gray") :=
  C6_integer_coverage 250 (by norm_num)

/-- C1 counterexample: the training signal of `predict_aqi` starts at
`i = 0` (`for i in range(days)`), so the series for current 100, 7 days,
rate 0.04 begins with 100, not 104 — it is not the claimed
[104, 108, 112, 116, 120, 124, 128]. -/
theorem C1_counterexample :
    predict_aqi 100 (4 / 100) 7 ≠ [104, 108, 112, 116, 120, 124, 128] := by
  rw [predict_aqi_eq]
  norm_num [List.range_succ, clampQ_eq_ite]

/-- C1 amended: `predict_aqi(100, days=7)` with rate 0.04 returns exactly
[100, 104, 108, 112, 116, 120, 124] — the affine formula evaluated at
`i` in 0..days−1 — and, for every input, the regression-based
implementation produces the same output as direct clamped evaluation of
that affine formula. -/
theorem C1_series_and_regression_agreement :
    predict_aqi 100 (4 / 100) 7 = [100, 104, 108, 112, 116, 120, 124] ∧
    ∀ (c r : ℚ) (d : ℕ),
      predict_aqi c r d = (List.range d).map (fun i : ℕ => clampQ (c * (1 + r * (i : ℚ)))) := by
  constructor
  · rw [predict_aqi_eq]
    norm_num [List.range_succ, clampQ_eq_ite]
  · exact predict_aqi_eq

/-- C8 counterexample: with current 480, 3 days, rate 0.5 the raw series
is [480, 720, 960] (the signal again starts at `i = 0`), so the clamped
series is [480, 500, 500], not the claimed [500, 500, 500]. -/
theorem C8_counterexample :
    predict_aqi 480 (1 / 2) 3 ≠ [500, 500, 500] := by
  rw [predict_aqi_eq]
  norm_num [List.range_succ, clampQ_eq_ite]

/-- C8 amended: `predict_aqi(480, days=3)` with rate 0.5 produces raw
values [480, 720, 960], which after clamping into [0, 500] yield exactly
[480, 500, 500]. -/
theorem C8_clamping :
    predict_raw 480 (1 / 2) 3 = [480, 720, 960] ∧
    predict_aqi 480 (1 / 2) 3 = [480, 500, 500] := by
  constructor
  · rw [predict_raw_eq]
    norm_num [List.range_succ]
  · rw [predict_aqi_eq]
    norm_num [List.range_succ, clampQ_eq_ite]

/-- C7: for every current value, rate, and days ≥ 1, the projection is an
ordered sequence of exactly `days` values, each clamped into [0, 500]
(below 0 becomes 0, above 500 becomes 500, otherwise the affine value
itself), and the series is a deterministic function of
(currentValue, growthRate, days). -/
theorem C7_series_invariants (c r : ℚ) (d : ℕ) (hd : 1 ≤ d) :
    (predict_aqi c r d).length = d ∧
    (∀ v ∈ predict_aqi c r d, 0 ≤ v ∧ v ≤ 500) ∧
    (∀ i, i < d → (predict_aqi c r d).getD i 0 =
        if c * (1 + r * (i : ℚ)) < 0 then 0
        else if 500 < c * (1 + r * (i : ℚ)) then 500
        else c * (1 + r * (i : ℚ))) := by
  refine ⟨?_, ?_, ?_⟩
  · rw [predict_aqi_eq, List.length_map, List.length_range]
  · intro v hv
    rw [predict_aqi_eq] at hv
    obtain ⟨i, _, rfl⟩ := List.mem_map.mp hv
    exact ⟨clampQ_nonneg _, clampQ_le_500 _⟩
  · intro i hi
    rw [predict_aqi_eq, getD_map_range _ _ _ hi, clampQ_eq_ite]

/-- Witness for C7 at (100, 0.04, 7). -/
theorem C7_witness :
    (predict_aqi 100 (4 / 100) 7).length = 7 ∧
    ∀ v ∈ predict_aqi 100 (4 / 100) 7, 0 ≤ v ∧ v ≤ 500 :=
  ⟨(C7_series_invariants 100 (4 / 100) 7 (by norm_num)).1,
   (C7_series_invariants 100 (4 / 100) 7 (by norm_num)).2.1⟩

/-- C2 counterexample: with rate 0.04 > 0 and current 100 > 0 but a
one-day horizon, the first and last predictions coincide, so the trend is
"decreasing", contradicting the claim that rate > 0 and x > 0 always give
"increasing". -/
theorem C2_counterexample :
    (0 : ℚ) < 4 / 100 ∧ (0 : ℚ) < 100 ∧
    (get_prediction_summary 100 (4 / 100) 1).trend = "decreasing" := by
  refine ⟨by norm_num, by norm_num, ?_⟩
  simp only [get_prediction_summary]
  rw [predict_aqi_headD 100 (4 / 100) 1 le_rfl,
    predict_aqi_getLastD 100 (4 / 100) 1 le_rfl]
  norm_num

/-- C2 amended: the trend tag is "increasing" iff the last element of the
series is strictly greater than the first (equal first/last yields
"decreasing"); the trend is "increasing" whenever rate > 0 and
0 < current < 500 and days ≥ 2 (for days = 1, or current at or beyond the
500 clamp, first = last and the tie-break gives "decreasing"), and it is
"decreasing" whenever the rate equals 0. -/
theorem C2_trend :
    (∀ (c r : ℚ) (d : ℕ), 1 ≤ d →
        ((get_prediction_summary c r d).trend = "increasing" ↔
          (predict_aqi c r d).headD 0 < (predict_aqi c r d).getLastD 0)) ∧
    (∀ (c r : ℚ) (d : ℕ), 0 < r → 0 < c → c < 500 → 2 ≤ d →
        (get_prediction_summary c r d).trend = "increasing") ∧
    (∀ (c : ℚ) (d : ℕ), 1 ≤ d →
        (get_prediction_summary c 0 d).trend = "decreasing") := by
  refine ⟨?_, ?_, ?_⟩
  · intro c r d hd
    simp only [get_prediction_summary, gt_iff_lt]
    constructor
    · intro h
      by_contra hlt
      rw [if_neg hlt] at h
      exact absurd h (by decide)
    · intro h
      rw [if_pos h]
  · intro c r d hr hc hc5 hd
    have h1 : (1 : ℕ) ≤ d := le_trans (by norm_num) hd
    have hfirst : (predict_aqi c r d).headD 0 = c := by
      rw [predict_aqi_headD c r d h1, clampQ_of_mem c hc.le hc5.le]
    have hdm1 : (1 : ℚ) ≤ ((d - 1 : ℕ) : ℚ) := by
      have : (1 : ℕ) ≤ d - 1 := by omega
      exact_mod_cast this
    have hraw : c < c * (1 + r * ((d - 1 : ℕ) : ℚ)) := by
      have hpos : 0 < c * (r * ((d - 1 : ℕ) : ℚ)) := by
        apply mul_pos hc (mul_pos hr (by linarith))
      nlinarith
    have hlast : c < (predict_aqi c r d).getLastD 0 := by
      rw [predict_aqi_getLastD c r d h1]
      rcases le_or_lt (c * (1 + r * ((d - 1 : ℕ) : ℚ))) 500 with h5 | h5
      · rw [clampQ_of_mem _ (by linarith) h5]
        exact hraw
      · rw [clampQ_eq_ite, if_neg (by linarith), if_pos h5]
        exact hc5
    simp only [get_prediction_summary, gt_iff_lt]
    rw [hfirst, if_pos hlast]
  · intro c d hd
    have hfirst : (predict_aqi c 0 d).headD 0 = clampQ c := predict_aqi_headD c 0 d hd
    have hlast : (predict_aqi c 0 d).getLastD 0 = clampQ c := by
      rw [predict_aqi_getLastD c 0 d hd]
      norm_num
    simp only [get_prediction_summary, gt_iff_lt]
    rw [hfirst, hlast, if_neg (lt_irrefl _)]

/-- Witness for C2 at (100, 0.04, 7) for the increasing case and
(100, 0, 7) for the zero-rate case. -/
theorem C2_witness :
    (get_prediction_summary 100 (4 / 100) 7).trend = "increasing" ∧
    (get_prediction_summary 100 0 7).trend = "decreasing" :=
  ⟨C2_trend.2.1 100 (4 / 100) 7 (by norm_num) (by norm_num) (by norm_num) (by norm_num),
   C2_trend.2.2 100 7 (by norm_num)⟩

/-- C10: the constructor replaces any falsy growth_rate argument with the
configured default, so a predictor constructed with growth_rate = 0
carries the default rate 0.04 and behaves identically to one constructed
with no argument — a zero growth rate cannot be configured through the
public constructor. -/
theorem C10_zero_rate_ignored :
    init_growth_rate (some 0) = init_growth_rate none ∧
    init_growth_rate (some 0) = PREDICTION_GROWTH_RATE ∧
    ∀ (c : ℚ) (d : ℕ),
      predict_aqi c (init_growth_rate (some 0)) d
        = predict_aqi c (init_growth_rate none) d := by
  have h : init_growth_rate (some 0) = init_growth_rate none := by
    simp [init_growth_rate]
  exact ⟨h, h.trans rfl, fun c d => by rw [h]⟩

/-- C3: for every city and fetch capability, if the fetch signals an
error then `get_city_aqi_info` catches it locally and returns an
error-status report carrying the capitalized city name and the error
description; no data fields are populated and the raw error is never
propagated (the function is total and always returns a report). -/
theorem C3_fetch_failure_contained (fetch : Fetch) (city e : String)
    (h : fetch city = .error e) :
    get_city_aqi_info fetch city =
      { city := pyCapitalize city
      , status := "error"
      , current_aqi := none
      , category := none
      , predictions := none
      , prediction_summary := none
      , error := some e } := by
  unfold get_city_aqi_info
  rw [h]

/-- Witness for C3: a fetch that always fails with "network down" on city
"delhi" yields the Failure-tagged report for "Delhi". -/
theorem C3_witness :
    get_city_aqi_info (fun _ => .error "network down") "delhi" =
      { city := "Delhi"
      , status := "error"
      , current_aqi := none
      , category := none
      , predictions := none
      , prediction_summary := none
      , error := some "network down" } := by
  have h := C3_fetch_failure_contained (fun _ => .error "network down") "delhi"
    "network down" rfl
  rw [h]
  have hc : pyCapitalize "delhi" = "Delhi" := by decide
  rw [hc]

/-- Fetch capability of the C4 aggregator scenario: city A yields 40,
city C yields 300, everything else (in particular B) fails. -/
def fetchABC : Fetch := fun c =>
  if c = "A" then .ok 40 else if c = "C" then .ok 300 else .error "fetch failed"

lemma countP_add_countP_not {α : Type} (l : List α) (p : α → Bool) :
    l.countP p + l.countP (fun a => !p a) = l.length := by
  induction l with
  | nil => rfl
  | cons x xs ih =>
    by_cases h : p x <;> simp [h, List.countP_cons] <;> omega

/-- C4: the aggregate report processes each city in input order without
any failure aborting the rest (every requested city appears, in order,
and successes + failures = total); in the scenario A ↦ 40, B ↦ failure,
C ↦ 300 it reports successes = 2, failures = 1, average = 170,
highest = (C, 300), lowest = (A, 40), and B is present with an error tag. -/
theorem C4_aggregate_report :
    (∀ (fetch : Fetch) (cs : List String),
        ((get_multiple_cities_report fetch cs).cities).map Prod.fst = cs ∧
        (get_multiple_cities_report fetch cs).summary.successful_fetches
          + (get_multiple_cities_report fetch cs).summary.failed_fetches
          = cs.length) ∧
    (get_multiple_cities_report fetchABC ["A", "B", "C"]).summary.successful_fetches = 2 ∧
    (get_multiple_cities_report fetchABC ["A", "B", "C"]).summary.failed_fetches = 1 ∧
    (get_multiple_cities_report fetchABC ["A", "B", "C"]).summary.average_aqi = 170 ∧
    (get_multiple_cities_report fetchABC ["A", "B", "C"]).summary.highest_aqi_city
      = some ("C", 300) ∧
    (get_multiple_cities_report fetchABC ["A", "B", "C"]).summary.lowest_aqi_city
      = some ("A", 40) ∧
    ((get_multiple_cities_report fetchABC ["A", "B", "C"]).cities).map
        (fun p => (p.1, p.2.status))
      = [("A", "success"), ("B", "error"), ("C", "success")] := by
  have hva : valid_aqis fetchABC ["A", "B", "C"] = [("A", 40), ("C", 300)] := by
    decide
  refine ⟨?_, ?_, ?_, ?_, ?_, ?_, ?_⟩
  · intro fetch cs
    constructor
    · simp [get_multiple_cities_report, List.map_map, Function.comp_def]
    · simp only [get_multiple_cities_report]
      rw [countP_add_countP_not, List.length_map]
  · decide
  · decide
  · simp only [get_multiple_cities_report, hva]
    norm_num
  · decide
  · decide
  · decide

/-- C9: if every requested city fails to fetch, the aggregate summary has
zero successes, failures equal to the number of cities, the neutral
average 0, and explicit `none` markers for highest and lowest. -/
theorem C9_all_failures (fetch : Fetch) (cities : List String)
    (h : ∀ c ∈ cities, ∃ e, fetch c = .error e) :
    (get_multiple_cities_report fetch cities).summary.successful_fetches = 0 ∧
    (get_multiple_cities_report fetch cities).summary.failed_fetches = cities.length ∧
    (get_multiple_cities_report fetch cities).summary.average_aqi = 0 ∧
    (get_multiple_cities_report fetch cities).summary.highest_aqi_city = none ∧
    (get_multiple_cities_report fetch cities).summary.lowest_aqi_city = none := by
  have hstat : ∀ c ∈ cities, (get_city_aqi_info fetch c).status = "error" := by
    intro c hc
    obtain ⟨e, he⟩ := h c hc
    unfold get_city_aqi_info
    rw [he]
  have hvalid : valid_aqis fetch cities = [] := by
    rw [valid_aqis, List.filterMap_eq_nil_iff]
    intro p hp
    obtain ⟨c, hc, rfl⟩ := List.mem_map.mp hp
    rw [if_neg]
    rw [hstat c hc]
    decide
  refine ⟨?_, ?_, ?_, ?_, ?_⟩
  · simp only [get_multiple_cities_report]
    rw [List.countP_eq_zero]
    intro p hp
    obtain ⟨c, hc, rfl⟩ := List.mem_map.mp hp
    simp [hstat c hc]
  · simp only [get_multiple_cities_report]
    rw [← List.length_map cities (fun c => (c, get_city_aqi_info fetch c)),
      List.countP_eq_length]
    intro p hp
    obtain ⟨c, hc, rfl⟩ := List.mem_map.mp hp
    simp [hstat c hc]
  · simp only [get_multiple_cities_report, hvalid]
    rfl
  · simp only [get_multiple_cities_report, hvalid]
    rfl
  · simp only [get_multiple_cities_report, hvalid]
    rfl

/-- Witness for C9: three cities, every fetch failing, give successes 0,
failures 3, average 0 and `none` extrema. -/
theorem C9_witness :
    (get_multiple_cities_report (fun _ => .error "down") ["X", "Y", "Z"]).summary.successful_fetches = 0 ∧
    (get_multiple_cities_report (fun _ => .error "down") ["X", "Y", "Z"]).summary.failed_fetches = 3 ∧
    (get_multiple_cities_report (fun _ => .error "down") ["X", "Y", "Z"]).summary.average_aqi = 0 ∧
    (get_multiple_cities_report (fun _ => .error "down") ["X", "Y", "Z"]).summary.highest_aqi_city = none ∧
    (get_multiple_cities_report (fun _ => .error "down") ["X", "Y", "Z"]).summary.lowest_aqi_city = none := by
  have h := C9_all_failures (fun _ => .error "down") ["X", "Y", "Z"]
    (fun c _ => ⟨"down", rfl⟩)
  exact ⟨h.1, h.2.1.trans rfl, h.2.2.1, h.2.2.2.1, h.2.2.2.2⟩

end AQI
